import Mathlib

/-!
Shallow embedding of the Sakumon-Slot core logic.

Part 1: `SlotLogic` (src/launch/slot-logic.js) — data model, question
selection, reel position mapping, answer judging.

Part 2: `SlotProblemGenerator.generateCombinations`
(src/dev/解答合体ツール/app.js) — constraint-satisfying combination
generation and persistence of results into the Ans sheet.

JavaScript numbers holding row numbers and type tags are modelled as
`Nat`/`Int`; strings as `String`; JS `undefined`/`null` as `Option`;
the `Math.random()`-driven draws as an explicit stream of already
floored indices.
-/

namespace SlotSpec

/-- One row of the Ans sheet, as produced by `parseAnswerSheetData`:
`{row_L, row_C, row_R, ans, lie_answer1, lie_answer2, lie_answer3}`. -/
structure AnswerRow where
  row_L : Int
  row_C : Int
  row_R : Int
  ans : String
  lie_answer1 : String
  lie_answer2 : String
  lie_answer3 : String
deriving DecidableEq, Repr

/-- The mutable fields of the `SlotLogic` class that the core logic
reads or writes.  `currentAnsRowNumber` starts out absent (it is only
created by `selectRandomQuestion`), hence `Option Nat`.  The image
cache maps image paths to Blob URLs. -/
structure SlotState where
  ans : List AnswerRow
  availableLeftRows : List Nat
  availableCenterRows : List Nat
  availableRightRows : List Nat
  symbolHeight : Nat
  symbolsPerReel : Nat
  visibleRows : Nat
  recentQuestions : List Nat
  maxRecentQuestions : Nat
  currentAnswer : Option AnswerRow
  currentAnsRowNumber : Option Nat
  isDataLoaded : Bool
  imageCache : List (String × String)
deriving DecidableEq, Repr

/-- The constructor of `SlotLogic`: empty data, `symbolHeight = 250`,
`symbolsPerReel = 30`, `visibleRows = 1`, `maxRecentQuestions = 3`. -/
def initState : SlotState :=
  { ans := []
    availableLeftRows := []
    availableCenterRows := []
    availableRightRows := []
    symbolHeight := 250
    symbolsPerReel := 30
    visibleRows := 1
    recentQuestions := []
    maxRecentQuestions := 3
    currentAnswer := none
    currentAnsRowNumber := none
    isDataLoaded := false
    imageCache := [] }

/-- Source field `this.queLeftPath`. -/
def queLeftPath : String := "Que_L_B/"

/-- Source field `this.queCenterPath`. -/
def queCenterPath : String := "Que_C_B/"

/-- Source field `this.queRightPath`. -/
def queRightPath : String := "Que_R_B/"

/-- Source field `this.ansCorrectPath`. -/
def ansCorrectPath : String := "Ans_D/"

/-- The local constant `maxAttempts = 50` of `selectRandomQuestion`. -/
def maxAttempts : Nat := 50

/-- The three reels; the source dispatches on the strings
`'left' | 'center' | 'right'`. -/
inductive ReelType where
  | left
  | center
  | right
deriving DecidableEq, Repr

/-- The `if (reelType === 'left') ... else if ...` dispatch selecting
the available-row list of a reel. -/
def rowsForReel (st : SlotState) : ReelType → List Nat
  | .left => st.availableLeftRows
  | .center => st.availableCenterRows
  | .right => st.availableRightRows

/-- Source method `getImageUrl`: cache lookup, empty string when the path is absent. -/
def getImageUrl (st : SlotState) (imagePath : String) : String :=
  match st.imageCache.lookup imagePath with
  | some blobUrl => blobUrl
  | none => ""

/-- Source method `isDataReady`: loaded flag and all four collections non-empty. -/
def isDataReady (st : SlotState) : Bool :=
  st.isDataLoaded
    && decide (0 < st.ans.length)
    && decide (0 < st.availableLeftRows.length)
    && decide (0 < st.availableCenterRows.length)
    && decide (0 < st.availableRightRows.length)

/-- Source method `setDataFromJson`: replaces the answer table and the three
available-row lists, then validates; the fields are assigned before the
validation throws, and `isDataLoaded` is set to `true` only when all
four collections are non-empty. -/
def setDataFromJson (st : SlotState) (ansData : List AnswerRow)
    (leftRows centerRows rightRows : List Nat) : SlotState :=
  let st' := { st with
    ans := ansData
    availableLeftRows := leftRows
    availableCenterRows := centerRows
    availableRightRows := rightRows }
  if ansData.length = 0 ∨ leftRows.length = 0 ∨ centerRows.length = 0
      ∨ rightRows.length = 0 then
    st'
  else
    { st' with isDataLoaded := true }

/-- Source method `setAns`: replaces the Ans data (the `Array.isArray` guard always
holds in the typed model). -/
def setAns (st : SlotState) (newAns : List AnswerRow) : SlotState :=
  { st with ans := newAns }

/-- Source method `generateStopPosition`, with the drawn value
`Math.floor(Math.random() * 10)` passed in explicitly:
`randomIndex * -symbolHeight`. -/
def generateStopPosition (st : SlotState) (randomIndex : Nat) : Int :=
  (randomIndex : Int) * (-(st.symbolHeight : Int))

/-- Source method `getPositionForQuestion(targetRowNumber, reelType)`.  `rand10` is
the random value used by the absent-row fallback.  When the target row
is found at `symbolIndex`, the code computes
`topIndex = symbolIndex - floor(visibleRows / 2)`, adds the list length
once if that is negative, and returns `topIndex * -symbolHeight`. -/
def getPositionForQuestion (st : SlotState) (targetRowNumber : Nat)
    (reelType : ReelType) (rand10 : Nat) : Int :=
  let rowNumbers := rowsForReel st reelType
  match rowNumbers.findIdx? (fun rowNum => rowNum == targetRowNumber) with
  | none => generateStopPosition st rand10
  | some symbolIndex =>
    let centerOffset := st.visibleRows / 2
    let topIndex : Int := (symbolIndex : Int) - (centerOffset : Int)
    let topIndex := if topIndex < 0 then topIndex + (rowNumbers.length : Int)
      else topIndex
    topIndex * (-(st.symbolHeight : Int))

/-- JS `Math.round(num / den)` for non-negative `num` and positive `den`
(round half toward positive infinity). -/
def jsRound (num den : Nat) : Nat := (2 * num + den) / (2 * den)

/-- Source method `getQuestionFromPosition(position, reelType)`:
`topIndex = Math.round(|position| / symbolHeight)`, then
`symbolIndex = (topIndex + centerOffset) % length`, then the array
read `rowNumbers[symbolIndex]` (as an `Option`, JS `undefined` being
`none`). -/
def getQuestionFromPosition (st : SlotState) (position : Int)
    (reelType : ReelType) : Option Nat :=
  let rowNumbers := rowsForReel st reelType
  let absPosition := position.natAbs
  let topIndex := jsRound absPosition st.symbolHeight
  let centerOffset := st.visibleRows / 2
  let symbolIndex := (topIndex + centerOffset) % rowNumbers.length
  rowNumbers.get? symbolIndex

/-- JS `String.prototype.trim()`: strip whitespace from both ends
(modelled over the character list so that it evaluates inside the
kernel). -/
def jsTrim (s : String) : String :=
  String.mk
    (((s.data.dropWhile (fun c => c.isWhitespace)).reverse.dropWhile
      (fun c => c.isWhitespace)).reverse)

/-- The leading-whitespace skip performed by JS `parseInt`. -/
def jsTrimLeft (s : String) : String :=
  String.mk (s.data.dropWhile (fun c => c.isWhitespace))

/-- The row-validity checks performed, in source order, on
`answerData = this.ans[randomIndex]` inside the draw loop of
`selectRandomQuestion`: non-falsy `row_L/row_C/row_R`, non-falsy
`ans/lie_answer1/lie_answer2`, then the whitespace-only checks. -/
def validAnswerData (r : AnswerRow) : Bool :=
  if r.row_L == 0 || r.row_C == 0 || r.row_R == 0 then false
  else if r.ans == "" || r.lie_answer1 == "" || r.lie_answer2 == "" then false
  else if jsTrim r.ans == "" then false
  else if jsTrim r.lie_answer1 == "" then false
  else if jsTrim r.lie_answer2 == "" then false
  else true

/-- Whether one iteration of the draw loop accepts `randomIndex`
(i.e. reaches `foundValidData = true` instead of `continue`): the index
must not be in `recentQuestions`, must address a row of `ans`, and that
row must pass `validAnswerData`.  An out-of-range index yields JS
`undefined` and never an accepted draw. -/
def acceptable (st : SlotState) (randomIndex : Nat) : Bool :=
  if st.recentQuestions.contains randomIndex then false
  else
    match st.ans.get? randomIndex with
    | none => false
    | some answerData => validAnswerData answerData

/-- The `while (attempts < maxAttempts && !foundValidData)` loop of
`selectRandomQuestion`.  `remaining = maxAttempts - attempts` and
`draws t` is `Math.floor(Math.random() * ans.length)` of iteration `t`
(0-based).  Returns the accepted index, if any, together with the final
value of `attempts`. -/
def selectGo (st : SlotState) (draws : Nat → Nat) :
    Nat → Nat → Option Nat × Nat
  | 0, attempts => (none, attempts)
  | remaining + 1, attempts =>
    let randomIndex := draws attempts
    if acceptable st randomIndex then (some randomIndex, attempts + 1)
    else selectGo st draws remaining (attempts + 1)

/-- One per-reel symbol reference of the value returned by
`selectRandomQuestion`: `{imagePath, imageUrl, rowNumber}`. -/
structure ReelRef where
  imagePath : String
  imageUrl : String
  rowNumber : Int
deriving DecidableEq, Repr

/-- The object returned by a successful `selectRandomQuestion`. -/
structure SelectResult where
  left : ReelRef
  center : ReelRef
  right : ReelRef
  answer : AnswerRow
  ansRowNumber : Nat
deriving DecidableEq, Repr

/-- Source method `selectRandomQuestion()`, with the random draws passed in as a
stream of floored indices.  Returns the JS return value paired with the
state after the call.  Mirrors the source: the not-ready early return;
the bounded draw loop; the unconditional `if (attempts >= maxAttempts)
return null` after the loop; then the `recentQuestions` push/shift, the
image-path construction and the assignment of `currentAnswer` and
`currentAnsRowNumber`. -/
def selectRandomQuestion (st : SlotState) (draws : Nat → Nat) :
    Option SelectResult × SlotState :=
  if isDataReady st = false then (none, st)
  else
    let loopResult := selectGo st draws maxAttempts 0
    let attempts := loopResult.2
    if maxAttempts ≤ attempts then (none, st)
    else
      match loopResult.1 with
      | none => (none, st)
      | some randomIndex =>
        match st.ans.get? randomIndex with
        | none => (none, st)
        | some answerData =>
          let rq := st.recentQuestions ++ [randomIndex]
          let rq := if st.maxRecentQuestions < rq.length then rq.tail else rq
          let ansRowNumber := randomIndex + 2
          let leftImagePath := queLeftPath ++ toString answerData.row_L ++ ".png"
          let centerImagePath :=
            queCenterPath ++ toString answerData.row_C ++ ".png"
          let rightImagePath :=
            queRightPath ++ toString answerData.row_R ++ ".png"
          let st' := { st with
            recentQuestions := rq
            currentAnswer := some answerData
            currentAnsRowNumber := some ansRowNumber }
          (some
            { left :=
                { imagePath := leftImagePath
                  imageUrl := getImageUrl st leftImagePath
                  rowNumber := answerData.row_L }
              center :=
                { imagePath := centerImagePath
                  imageUrl := getImageUrl st centerImagePath
                  rowNumber := answerData.row_C }
              right :=
                { imagePath := rightImagePath
                  imageUrl := getImageUrl st rightImagePath
                  rowNumber := answerData.row_R }
              answer := answerData
              ansRowNumber := ansRowNumber }, st')

/-- The result object of `judgeAnswer`; the no-question branch returns
an object without `selectedImagePath` and with `null` image fields,
modelled by `none`. -/
structure JudgeResult where
  isCorrect : Bool
  message : String
  correctImagePath : Option String
  correctImageUrl : Option String
  selectedImagePath : Option String
deriving DecidableEq, Repr

/-- The early-return value of `judgeAnswer` when
`!this.currentAnswer || !this.currentAnsRowNumber`. -/
def noQuestionResult : JudgeResult :=
  { isCorrect := false
    message := "問題が選択されていません"
    correctImagePath := none
    correctImageUrl := none
    selectedImagePath := none }

/-- JS falsiness of the number-or-undefined `currentAnsRowNumber`. -/
def falsyOptNat : Option Nat → Bool
  | none => true
  | some n => n == 0

/-- Whether the guard of `judgeAnswer` (and `generateAnswerChoices`)
sees an active question: `currentAnswer` and `currentAnsRowNumber`
both truthy. -/
def currentQuestionActive (st : SlotState) : Bool :=
  st.currentAnswer.isSome && !falsyOptNat st.currentAnsRowNumber

/-- Source method `judgeAnswer(selectedImagePath)`: graceful no-question fallback,
otherwise equality of the selected path with
`ansCorrectPath + currentAnsRowNumber + ".png"`. -/
def judgeAnswer (st : SlotState) (selectedImagePath : String) : JudgeResult :=
  if currentQuestionActive st = false then noQuestionResult
  else
    match st.currentAnsRowNumber with
    | none => noQuestionResult
    | some n =>
      let correctImagePath := ansCorrectPath ++ toString n ++ ".png"
      let correctImageUrl := getImageUrl st correctImagePath
      let isCorrect := selectedImagePath == correctImagePath
      { isCorrect := isCorrect
        message := if isCorrect then "正解です！" else "不正解です"
        correctImagePath := some correctImagePath
        correctImageUrl := some correctImageUrl
        selectedImagePath := some selectedImagePath }

/-- The state-mutating operations of the core: data loads, direct Ans
replacement, and question selection (with its stream of draws). -/
inductive SlotOp where
  | load (ansData : List AnswerRow) (leftRows centerRows rightRows : List Nat)
  | setAnsData (newAns : List AnswerRow)
  | select (draws : Nat → Nat)

/-- Apply one operation to the state. -/
def applyOp (st : SlotState) : SlotOp → SlotState
  | .load a l c r => setDataFromJson st a l c r
  | .setAnsData a => setAns st a
  | .select draws => (selectRandomQuestion st draws).2

/-- Run a sequence of operations from the freshly constructed state. -/
def runOps (ops : List SlotOp) : SlotState :=
  ops.foldl applyOp initState

/-! Part 2: `SlotProblemGenerator.generateCombinations` and its helpers
(src/dev/解答合体ツール/app.js).  Sheet cells are modelled as the
string contents returned by `getCellValue` (`none` for a missing
cell); the JS string-keyed `Set`s of integer pairs and triples are
modelled as insertion-ordered duplicate-free lists of the parsed
integers (the `"a,b"` string encoding of integer pairs is injective). -/

/-- Leading-digit prefix of a character list, or `none` when it does
not start with a digit. -/
def digitsPrefix (cs : List Char) : Option Nat :=
  let ds := cs.takeWhile (fun c => c.isDigit)
  if ds.isEmpty then none
  else some (ds.foldl (fun a c => a * 10 + (c.toNat - '0'.toNat)) 0)

/-- JS `parseInt` on a string (decimal): skip leading whitespace, an
optional sign, then a non-empty digit prefix; `NaN` is `none`. -/
def jsParseInt (s : String) : Option Int :=
  match (jsTrimLeft s).data with
  | '-' :: rest => (digitsPrefix rest).map (fun n => -(n : Int))
  | '+' :: rest => (digitsPrefix rest).map (fun n => (n : Int))
  | cs => (digitsPrefix cs).map (fun n => (n : Int))

/-- One entry produced by `loadSheetData`: the raw `type` cell (A
column, `none` when missing) and the `question` cell (B column). -/
structure SheetEntry where
  type : Option String
  question : String
deriving DecidableEq, Repr

/-- The combined skip logic of the loop body of `generateCombinations`
for one entry: `if (!item.type) continue` (missing or empty tag)
followed by `parseInt` and the `isNaN` check.  `none` means the entry
is skipped. -/
def entryType (e : SheetEntry) : Option Int :=
  match e.type with
  | none => none
  | some s => if s == "" then none else jsParseInt s

/-- Source method `isValidCombination(typeL, typeC, typeR, lcPairs, lrPairs,
crPairs)`: membership of the three pairs in the three constraint
sets. -/
def isValidCombination (typeL typeC typeR : Int)
    (lcPairs lrPairs crPairs : List (Int × Int)) : Bool :=
  lcPairs.contains (typeL, typeC)
    && lrPairs.contains (typeL, typeR)
    && crPairs.contains (typeC, typeR)

/-- Source method `isExistingCombination(combination, existingData)`: membership of
the row triple in the set of existing Ans triples. -/
def isExistingCombination (combination : Int × Int × Int)
    (existingData : List (Int × Int × Int)) : Bool :=
  existingData.contains combination

/-- One generated problem as pushed onto `problems`. -/
structure Problem where
  row_L : Nat
  row_C : Nat
  row_R : Nat
  question : String
  type_L : Int
  type_C : Int
  type_R : Int
deriving DecidableEq, Repr

/-- The innermost loop body of `generateCombinations` at indices
`(i, j, k)`: the falsy/`NaN` type skips, the constraint check and the
existing-combination check; `some` is the problem pushed onto
`problems`. -/
def combinationAt (lcPairs lrPairs crPairs : List (Int × Int))
    (existingData : List (Int × Int × Int))
    (i : Nat) (lItem : SheetEntry) (j : Nat) (cItem : SheetEntry)
    (k : Nat) (rItem : SheetEntry) : Option Problem :=
  match entryType lItem, entryType cItem, entryType rItem with
  | some typeL, some typeC, some typeR =>
    if isValidCombination typeL typeC typeR lcPairs lrPairs crPairs then
      if isExistingCombination
          (((i : Int) + 2, (j : Int) + 2, (k : Int) + 2)) existingData then
        none
      else
        some
          { row_L := i + 2
            row_C := j + 2
            row_R := k + 2
            question := lItem.question ++ cItem.question ++ rItem.question
            type_L := typeL
            type_C := typeC
            type_R := typeR }
    else none
  | _, _, _ => none

/-- The `problems` list built by the triple nested loop of
`generateCombinations` (outer loop over `lData`, then `cData`, then
`rData`); `count` equals its length. -/
def generateCombinations (lData cData rData : List SheetEntry)
    (lcPairs lrPairs crPairs : List (Int × Int))
    (existingData : List (Int × Int × Int)) : List Problem :=
  lData.enum.flatMap fun li =>
    cData.enum.flatMap fun cj =>
      rData.enum.filterMap fun rk =>
        combinationAt lcPairs lrPairs crPairs existingData
          li.1 li.2 cj.1 cj.2 rk.1 rk.2

/-- Insertion into a JS `Set` in insertion order. -/
def addToSet {α : Type} [DecidableEq α] (s : List α) (a : α) : List α :=
  if a ∈ s then s else s ++ [a]

/-- Source method `loadExistingAnsData`: the contiguous block of fully filled Ans
rows starting at sheet row 2 is given as the list of its parsed
`(row_L, row_C, row_R)` triples; the JS `Set` built from their string
keys is the insertion-ordered deduplication. -/
def loadExistingAnsData (ansRows : List (Int × Int × Int)) :
    List (Int × Int × Int) :=
  ansRows.foldl addToSet []

/-- One `setCellValue` group writing a generated problem to Ans sheet
row `row` (columns A, B, C and I). -/
structure AnsWrite where
  row : Nat
  row_L : Nat
  row_C : Nat
  row_R : Nat
  question : String
deriving DecidableEq, Repr

/-- Fold one candidate through the loop body, threading the `problems`-
write list and the mutable `ansRow` counter exactly as the source
does: both advance only when a problem is emitted. -/
def writeStep (lcPairs lrPairs crPairs : List (Int × Int))
    (existingData : List (Int × Int × Int))
    (acc : List AnsWrite × Nat)
    (cand : (Nat × SheetEntry) × (Nat × SheetEntry) × (Nat × SheetEntry)) :
    List AnsWrite × Nat :=
  match combinationAt lcPairs lrPairs crPairs existingData
      cand.1.1 cand.1.2 cand.2.1.1 cand.2.1.2 cand.2.2.1 cand.2.2.2 with
  | none => acc
  | some p =>
    (acc.1 ++
        [{ row := acc.2
           row_L := p.row_L
           row_C := p.row_C
           row_R := p.row_R
           question := p.question }],
      acc.2 + 1)

/-- The candidate index triples visited by the nested loops, in
visit order. -/
def candidateTriples (lData cData rData : List SheetEntry) :
    List ((Nat × SheetEntry) × (Nat × SheetEntry) × (Nat × SheetEntry)) :=
  lData.enum.flatMap fun li =>
    cData.enum.flatMap fun cj =>
      rData.enum.map fun rk => (li, cj, rk)

/-- The Ans-sheet writes performed by `generateCombinations`: the
existing-triple set is loaded from the Ans sheet, `ansRow` starts at
`2 + existingAnsData.size`, and each emitted problem is written at the
current `ansRow`, which then increments. -/
def generateCombinationsWrites (lData cData rData : List SheetEntry)
    (lcPairs lrPairs crPairs : List (Int × Int))
    (ansRows : List (Int × Int × Int)) : List AnsWrite :=
  let existingAnsData := loadExistingAnsData ansRows
  ((candidateTriples lData cData rData).foldl
    (writeStep lcPairs lrPairs crPairs existingAnsData)
    ([], 2 + existingAnsData.length)).1

/-! Concrete fixtures used to instantiate the theorems. -/

/-- A fully valid Ans row. -/
def demoRow : AnswerRow :=
  { row_L := 1, row_C := 1, row_R := 1, ans := "a", lie_answer1 := "b"
    lie_answer2 := "c", lie_answer3 := "d" }

/-- An Ans row with a blank correct answer (invalid for selection). -/
def blankRow : AnswerRow :=
  { row_L := 1, row_C := 1, row_R := 1, ans := "", lie_answer1 := "b"
    lie_answer2 := "c", lie_answer3 := "d" }

/-- A ready store whose row 0 is invalid and row 1 valid. -/
def mixedState : SlotState :=
  { initState with
    ans := [blankRow, demoRow]
    availableLeftRows := [2]
    availableCenterRows := [2]
    availableRightRows := [2]
    isDataLoaded := true }

/-- A ready store with a single valid row and two-element reel lists. -/
def readyState : SlotState :=
  { initState with
    ans := [demoRow]
    availableLeftRows := [2, 3]
    availableCenterRows := [2, 3]
    availableRightRows := [2, 3]
    isDataLoaded := true }

/-- A ready store with only the invalid row. -/
def allInvalidState : SlotState :=
  { initState with
    ans := [blankRow]
    availableLeftRows := [2]
    availableCenterRows := [2]
    availableRightRows := [2]
    isDataLoaded := true }

/-- A configuration with `visibleRows = 9` (center offset 4) and a
three-element reel list: the center offset exceeds the list length. -/
def wideWindowState : SlotState :=
  { initState with
    ans := [demoRow]
    availableLeftRows := [2, 3, 4]
    availableCenterRows := [2]
    availableRightRows := [2]
    visibleRows := 9
    isDataLoaded := true }

/-- A configuration with `visibleRows = 4` (center offset 2) and a
one-element reel list. -/
def narrowListState : SlotState :=
  { initState with
    ans := [demoRow]
    availableLeftRows := [2]
    availableCenterRows := [2]
    availableRightRows := [2]
    visibleRows := 4
    isDataLoaded := true }

/-- A configuration with `visibleRows = 3` (center offset 1), where
row index 0 wraps to the tail of the two-element list. -/
def threeRowState : SlotState :=
  { initState with
    ans := [demoRow]
    availableLeftRows := [2, 3]
    availableCenterRows := [2, 3]
    availableRightRows := [2, 3]
    visibleRows := 3
    isDataLoaded := true }

/-- A store with an active current question on Ans sheet row 2. -/
def activeState : SlotState :=
  { initState with
    currentAnswer := some demoRow
    currentAnsRowNumber := some 2 }

/-- The draw stream that draws the invalid index 0 on the first 49
attempts and the valid index 1 on the 50th. -/
def capDraws : Nat → Nat := fun t => if t < 49 then 0 else 1

/-- A sheet entry with type tag 1. -/
def typedEntry : SheetEntry := { type := some "1", question := "q" }

/-- The result object returned by `selectRandomQuestion` on
`mixedState` when every draw is index 1. -/
def selectedResult : SelectResult :=
  { left := { imagePath := "Que_L_B/1.png", imageUrl := "", rowNumber := 1 }
    center := { imagePath := "Que_C_B/1.png", imageUrl := "", rowNumber := 1 }
    right := { imagePath := "Que_R_B/1.png", imageUrl := "", rowNumber := 1 }
    answer := demoRow
    ansRowNumber := 3 }

/-- The state after that successful selection. -/
def selectedState : SlotState :=
  { mixedState with
    recentQuestions := [1]
    currentAnswer := some demoRow
    currentAnsRowNumber := some 3 }

/-- The invariant maintained by every operation: the history bound
is the constructor constant 3 and the history length never exceeds
it. -/
def historyInv (st : SlotState) : Prop :=
  st.maxRecentQuestions = 3 ∧ st.recentQuestions.length ≤ 3

/-! Helper lemmas. -/

lemma findIdx?_beq_spec (target : Nat) :
    ∀ (l : List Nat) (i : Nat),
      l.findIdx? (fun x => x == target) = some i →
      i < l.length ∧ l.get? i = some target := by
  intro l
  induction l with
  | nil => intro i h; simp [List.findIdx?] at h
  | cons x xs ih =>
    intro i h
    rw [List.findIdx?_cons] at h
    by_cases hx : x = target
    · subst hx
      simp at h
      subst h
      simp
    · have hbx : (x == target) = false := by simp [hx]
      rw [hbx] at h
      simp only [Bool.false_eq_true, if_false, List.findIdx?_succ] at h
      cases hfind : xs.findIdx? (fun x => x == target) with
      | none => rw [hfind] at h; simp at h
      | some j =>
        rw [hfind] at h
        simp at h
        obtain ⟨hj, hget⟩ := ih j hfind
        subst h
        constructor
        · simpa using Nat.succ_lt_succ hj
        · simpa using hget

lemma findIdx?_beq_of_mem {target : Nat} {l : List Nat} (hmem : target ∈ l) :
    ∃ i, l.findIdx? (fun x => x == target) = some i := by
  cases h : l.findIdx? (fun x => x == target) with
  | some i => exact ⟨i, rfl⟩
  | none =>
    have := List.findIdx?_eq_none_iff.mp h target hmem
    simp at this

lemma jsRound_mul (m h : Nat) (hh : 0 < h) : jsRound (m * h) h = m := by
  unfold jsRound
  have h2 : 2 * (m * h) + h = 2 * h * m + h := by ring
  rw [h2, Nat.mul_add_div (by omega)]
  have hlt : h / (2 * h) = 0 := Nat.div_eq_of_lt (by omega)
  omega

lemma natAbs_mul_neg (m h : Nat) : (((m : Int)) * -(h : Int)).natAbs = m * h := by
  rw [Int.natAbs_mul, Int.natAbs_neg]
  simp

/-- Claim C1 (amended): for every reel whose row-number list contains
the row `target`, converting `target` to a pixel position and back
returns `target`, for every configuration with `symbolHeight > 0` and
`visibleRows ≥ 1` — provided additionally that
`floor(visibleRows / 2) ≤` the list length (the single `+ length`
wrap of `getPositionForQuestion` only restores a non-negative top
index under this bound; the shipped configuration `visibleRows = 1`
satisfies it for every non-empty list). -/
theorem C1_roundtrip (st : SlotState) (reelType : ReelType)
    (target : Nat) (rand10 : Nat)
    (hh : 0 < st.symbolHeight)
    (_hv : 1 ≤ st.visibleRows)
    (hmem : target ∈ rowsForReel st reelType)
    (hco : st.visibleRows / 2 ≤ (rowsForReel st reelType).length) :
    getQuestionFromPosition st
      (getPositionForQuestion st target reelType rand10) reelType
      = some target := by
  obtain ⟨i, hfind⟩ := findIdx?_beq_of_mem hmem
  obtain ⟨hi, hget⟩ := findIdx?_beq_spec target _ i hfind
  simp only [getPositionForQuestion, getQuestionFromPosition, hfind]
  by_cases hcase : (i : Int) - (st.visibleRows / 2 : Nat) < 0
  · rw [if_pos hcase]
    have hclt : i < st.visibleRows / 2 := by exact_mod_cast by omega
    have hm : (i : Int) - (st.visibleRows / 2 : Nat)
        + ((rowsForReel st reelType).length : Int)
        = ((i + (rowsForReel st reelType).length - st.visibleRows / 2 : Nat) :
            Int) := by
      push_cast
      omega
    rw [hm, natAbs_mul_neg, jsRound_mul _ _ hh]
    have hmod : (i + (rowsForReel st reelType).length - st.visibleRows / 2
        + st.visibleRows / 2) % (rowsForReel st reelType).length = i := by
      have hsum : i + (rowsForReel st reelType).length - st.visibleRows / 2
          + st.visibleRows / 2 = i + (rowsForReel st reelType).length := by
        omega
      rw [hsum, Nat.add_mod_right, Nat.mod_eq_of_lt hi]
    rw [hmod, hget]
  · rw [if_neg hcase]
    have hcge : st.visibleRows / 2 ≤ i := by exact_mod_cast by omega
    have hm : (i : Int) - (st.visibleRows / 2 : Nat)
        = ((i - st.visibleRows / 2 : Nat) : Int) := by
      push_cast
      omega
    rw [hm, natAbs_mul_neg, jsRound_mul _ _ hh]
    have hmod : (i - st.visibleRows / 2 + st.visibleRows / 2)
        % (rowsForReel st reelType).length = i := by
      have hsum : i - st.visibleRows / 2 + st.visibleRows / 2 = i := by omega
      rw [hsum, Nat.mod_eq_of_lt hi]
    rw [hmod, hget]

lemma selectGo_none (st : SlotState) (draws : Nat → Nat) :
    ∀ (remaining attempts : Nat),
      (∀ t, attempts ≤ t → t < attempts + remaining →
        acceptable st (draws t) = false) →
      selectGo st draws remaining attempts = (none, attempts + remaining) := by
  intro remaining
  induction remaining with
  | zero => intro attempts _; simp [selectGo]
  | succ rem ih =>
    intro attempts hrej
    have h0 : acceptable st (draws attempts) = false :=
      hrej attempts (Nat.le_refl _) (by omega)
    simp only [selectGo, h0, Bool.false_eq_true, if_false]
    rw [ih (attempts + 1) (fun t h1 h2 => hrej t (by omega) (by omega))]
    have harith : attempts + 1 + rem = attempts + (rem + 1) := by omega
    rw [harith]

lemma selectGo_first (st : SlotState) (draws : Nat → Nat) :
    ∀ (remaining attempts t₀ : Nat),
      attempts ≤ t₀ → t₀ < attempts + remaining →
      (∀ t, attempts ≤ t → t < t₀ → acceptable st (draws t) = false) →
      acceptable st (draws t₀) = true →
      selectGo st draws remaining attempts = (some (draws t₀), t₀ + 1) := by
  intro remaining
  induction remaining with
  | zero => intro attempts t₀ h1 h2 _ _; omega
  | succ rem ih =>
    intro attempts t₀ h1 h2 hrej hacc
    by_cases heq : attempts = t₀
    · subst heq
      simp only [selectGo, hacc, if_true]
    · have hlt : attempts < t₀ := by omega
      have h0 : acceptable st (draws attempts) = false :=
        hrej attempts (Nat.le_refl _) hlt
      simp only [selectGo, h0, Bool.false_eq_true, if_false]
      exact ih (attempts + 1) t₀ (by omega) (by omega)
        (fun t ha hb => hrej t (by omega) hb) hacc

lemma selectGo_some_acceptable (st : SlotState) (draws : Nat → Nat) :
    ∀ (remaining attempts : Nat) (i n : Nat),
      selectGo st draws remaining attempts = (some i, n) →
      acceptable st i = true := by
  intro remaining
  induction remaining with
  | zero => intro attempts i n h; simp [selectGo] at h
  | succ rem ih =>
    intro attempts i n h
    simp only [selectGo] at h
    by_cases hacc : acceptable st (draws attempts) = true
    · rw [if_pos hacc] at h
      simp at h
      rw [h.1] at hacc
      exact hacc
    · rw [if_neg hacc] at h
      exact ih (attempts + 1) i n h

lemma acceptable_spec {st : SlotState} {i : Nat}
    (h : acceptable st i = true) :
    st.recentQuestions.contains i = false ∧
    ∃ r, st.ans.get? i = some r ∧ validAnswerData r = true := by
  unfold acceptable at h
  by_cases hc : st.recentQuestions.contains i
  · rw [if_pos hc] at h; exact absurd h (by simp)
  · rw [if_neg hc] at h
    refine ⟨by simpa using hc, ?_⟩
    cases hget : st.ans.get? i with
    | none => rw [hget] at h; exact absurd h (by simp)
    | some r => rw [hget] at h; exact ⟨r, rfl, h⟩

lemma validAnswerData_spec {r : AnswerRow} (h : validAnswerData r = true) :
    r.row_L ≠ 0 ∧ r.row_C ≠ 0 ∧ r.row_R ≠ 0 ∧
    jsTrim r.ans ≠ "" ∧ jsTrim r.lie_answer1 ≠ "" ∧
    jsTrim r.lie_answer2 ≠ "" := by
  unfold validAnswerData at h
  by_cases h1 : (r.row_L == 0 || r.row_C == 0 || r.row_R == 0) = true
  · rw [if_pos h1] at h; exact absurd h (by simp)
  · rw [if_neg h1] at h
    by_cases h2 :
        (r.ans == "" || r.lie_answer1 == "" || r.lie_answer2 == "") = true
    · rw [if_pos h2] at h; exact absurd h (by simp)
    · rw [if_neg h2] at h
      by_cases h3 : (jsTrim r.ans == "") = true
      · rw [if_pos h3] at h; exact absurd h (by simp)
      · rw [if_neg h3] at h
        by_cases h4 : (jsTrim r.lie_answer1 == "") = true
        · rw [if_pos h4] at h; exact absurd h (by simp)
        · rw [if_neg h4] at h
          by_cases h5 : (jsTrim r.lie_answer2 == "") = true
          · rw [if_pos h5] at h; exact absurd h (by simp)
          · simp at h1 h3 h4 h5
            exact ⟨h1.1.1, h1.1.2, h1.2, h3, h4, h5⟩

/-- Claim C2 (amended): whenever `selectRandomQuestion`, called on a
ready store, first draws an acceptable index at attempt `t₀ + 1` with
`t₀ + 1 ≤ 49` — strictly below the cap of 50 — it stops drawing at
that attempt, pushes the chosen index into the selection history and
returns that Ans row with its per-reel symbol references.  (An
acceptable index first drawn exactly at attempt 50 is found by the
loop but discarded by the `attempts >= maxAttempts` check, and the
call returns `null`; see the counterexample.) -/
theorem C2_success_before_cap (st : SlotState) (draws : Nat → Nat)
    (t₀ : Nat)
    (hready : isDataReady st = true)
    (hcap : t₀ + 1 < maxAttempts)
    (hacc : acceptable st (draws t₀) = true)
    (hfirst : ∀ t, t < t₀ → acceptable st (draws t) = false) :
    (selectGo st draws maxAttempts 0).2 = t₀ + 1 ∧
    ∃ res st', selectRandomQuestion st draws = (some res, st') ∧
      st.ans.get? (draws t₀) = some res.answer ∧
      res.ansRowNumber = draws t₀ + 2 ∧
      res.left.rowNumber = res.answer.row_L ∧
      res.center.rowNumber = res.answer.row_C ∧
      res.right.rowNumber = res.answer.row_R ∧
      st'.recentQuestions =
        (if st.maxRecentQuestions < (st.recentQuestions ++ [draws t₀]).length
          then (st.recentQuestions ++ [draws t₀]).tail
          else st.recentQuestions ++ [draws t₀]) := by
  have hloop : selectGo st draws maxAttempts 0 = (some (draws t₀), t₀ + 1) :=
    selectGo_first st draws maxAttempts 0 t₀ (Nat.zero_le _) (by omega)
      (fun t _ hb => hfirst t hb) hacc
  refine ⟨by rw [hloop], ?_⟩
  obtain ⟨-, r, hget, -⟩ := acceptable_spec hacc
  simp only [selectRandomQuestion, hready, hloop, hget]
  rw [if_neg (by simp), if_neg (by omega)]
  exact ⟨_, _, rfl, hget.symm ▸ rfl, rfl, rfl, rfl, rfl, rfl⟩

/-- Claim C3: on a ready store all of whose rows are invalid, the
selector performs exactly 50 draw attempts (for every sequence of
in-range random draws) and then returns `null` with the state
unchanged. -/
theorem C3_exhaustion (st : SlotState) (draws : Nat → Nat)
    (hready : isDataReady st = true)
    (_hdraws : ∀ t, draws t < st.ans.length)
    (hinvalid : ∀ r ∈ st.ans, validAnswerData r = false) :
    (selectGo st draws maxAttempts 0).2 = 50 ∧
    selectRandomQuestion st draws = (none, st) := by
  have hrej : ∀ t, acceptable st (draws t) = false := by
    intro t
    unfold acceptable
    by_cases hc : st.recentQuestions.contains (draws t)
    · rw [if_pos hc]
    · rw [if_neg hc]
      cases hget : st.ans.get? (draws t) with
      | none => rfl
      | some r =>
        exact hinvalid r (List.get?_mem hget)
  have hloop : selectGo st draws maxAttempts 0 = (none, 0 + maxAttempts) :=
    selectGo_none st draws maxAttempts 0 (fun t _ _ => hrej t)
  refine ⟨by rw [hloop]; simp [maxAttempts], ?_⟩
  simp only [selectRandomQuestion, hloop]
  rw [if_neg (by simp [hready]), if_pos (by simp [maxAttempts])]

/-- Claim C4: for every store state and every draw sequence, a row
returned by `selectRandomQuestion` always comes from an index that was
not in the selection history at the time of the call, and never has a
zero `row_L`/`row_C`/`row_R` or a blank (after trimming) `ans`,
`lie_answer1` or `lie_answer2`. -/
theorem C4_result_valid (st : SlotState) (draws : Nat → Nat)
    (res : SelectResult) (st' : SlotState)
    (h : selectRandomQuestion st draws = (some res, st')) :
    ∃ i, res.ansRowNumber = i + 2 ∧
      st.recentQuestions.contains i = false ∧
      st.ans.get? i = some res.answer ∧
      res.answer.row_L ≠ 0 ∧ res.answer.row_C ≠ 0 ∧ res.answer.row_R ≠ 0 ∧
      jsTrim res.answer.ans ≠ "" ∧ jsTrim res.answer.lie_answer1 ≠ "" ∧
      jsTrim res.answer.lie_answer2 ≠ "" := by
  simp only [selectRandomQuestion] at h
  split at h
  · simp at h
  split at h
  · simp at h
  split at h
  · simp at h
  rename_i i hloop1
  split at h
  · simp at h
  rename_i r hget
  have hacc : acceptable st i = true := by
    refine selectGo_some_acceptable st draws maxAttempts 0 i
      (selectGo st draws maxAttempts 0).2 ?_
    rw [← hloop1]
  obtain ⟨hnotrecent, r', hget', hvalid'⟩ := acceptable_spec hacc
  rw [hget] at hget'
  have hrr : r' = r := by
    simpa using hget'.symm
  subst hrr
  simp only [Prod.mk.injEq, Option.some.injEq] at h
  obtain ⟨hres, -⟩ := h
  obtain ⟨h1, h2, h3, h4, h5, h6⟩ := validAnswerData_spec hvalid'
  refine ⟨i, ?_, hnotrecent, ?_, ?_, ?_, ?_, ?_, ?_, ?_⟩ <;>
    rw [← hres] <;> first | exact hget | assumption'

/-- Claim C10: whenever `selectRandomQuestion` returns `null` — store
not ready, or no acceptable index accepted within the cap — the
selector state is unchanged: `recentQuestions`, `currentAnswer` and
`currentAnsRowNumber` keep their values. -/
theorem C10_failure_atomic (st : SlotState) (draws : Nat → Nat)
    (st' : SlotState)
    (h : selectRandomQuestion st draws = (none, st')) :
    st'.recentQuestions = st.recentQuestions ∧
    st'.currentAnswer = st.currentAnswer ∧
    st'.currentAnsRowNumber = st.currentAnsRowNumber := by
  have hst : st' = st := by
    simp only [selectRandomQuestion] at h
    split at h
    · simp only [Prod.mk.injEq] at h
      exact h.2.symm
    split at h
    · simp only [Prod.mk.injEq] at h
      exact h.2.symm
    split at h
    · simp only [Prod.mk.injEq] at h
      exact h.2.symm
    split at h
    · simp only [Prod.mk.injEq] at h
      exact h.2.symm
    simp at h
  subst hst
  exact ⟨rfl, rfl, rfl⟩

/-- Claim C8: with an active question, `judgeAnswer` returns
`isCorrect = true` iff the selected path equals the current correct
image path, whose value is also always returned; with no active
question it returns the well-formed fallback with `isCorrect = false`
and a `null` correct path. -/
theorem C8_judge (st : SlotState) (selectedImagePath : String) :
    (currentQuestionActive st = true →
      ∃ n, st.currentAnsRowNumber = some n ∧
        (judgeAnswer st selectedImagePath).isCorrect
          = (selectedImagePath == ansCorrectPath ++ toString n ++ ".png") ∧
        (judgeAnswer st selectedImagePath).correctImagePath
          = some (ansCorrectPath ++ toString n ++ ".png")) ∧
    (currentQuestionActive st = false →
      (judgeAnswer st selectedImagePath).isCorrect = false ∧
      (judgeAnswer st selectedImagePath).correctImagePath = none) := by
  constructor
  · intro hactive
    have hrow : ∃ n, st.currentAnsRowNumber = some n := by
      unfold currentQuestionActive falsyOptNat at hactive
      cases hr : st.currentAnsRowNumber with
      | none => rw [hr] at hactive; simp at hactive
      | some n => exact ⟨n, rfl⟩
    obtain ⟨n, hn⟩ := hrow
    refine ⟨n, hn, ?_, ?_⟩ <;>
      simp only [judgeAnswer, hactive, hn] <;> simp
  · intro hinactive
    simp [judgeAnswer, hinactive, noQuestionResult]

lemma selectRQ_spec (st : SlotState) (draws : Nat → Nat) :
    selectRandomQuestion st draws = (none, st) ∨
    ∃ i r,
      (selectGo st draws maxAttempts 0).1 = some i ∧
      st.ans.get? i = some r ∧
      selectRandomQuestion st draws =
        (some
          { left :=
              { imagePath := queLeftPath ++ toString r.row_L ++ ".png"
                imageUrl :=
                  getImageUrl st (queLeftPath ++ toString r.row_L ++ ".png")
                rowNumber := r.row_L }
            center :=
              { imagePath := queCenterPath ++ toString r.row_C ++ ".png"
                imageUrl :=
                  getImageUrl st (queCenterPath ++ toString r.row_C ++ ".png")
                rowNumber := r.row_C }
            right :=
              { imagePath := queRightPath ++ toString r.row_R ++ ".png"
                imageUrl :=
                  getImageUrl st (queRightPath ++ toString r.row_R ++ ".png")
                rowNumber := r.row_R }
            answer := r
            ansRowNumber := i + 2 },
          { st with
            recentQuestions :=
              (if st.maxRecentQuestions < (st.recentQuestions ++ [i]).length
                then (st.recentQuestions ++ [i]).tail
                else st.recentQuestions ++ [i])
            currentAnswer := some r
            currentAnsRowNumber := some (i + 2) }) := by
  by_cases hready : isDataReady st = false
  · left
    simp [selectRandomQuestion, hready]
  cases hloop : selectGo st draws maxAttempts 0 with
  | mk found attempts =>
    by_cases hatt : maxAttempts ≤ attempts
    · left
      simp only [selectRandomQuestion, hloop]
      rw [if_neg hready, if_pos hatt]
    cases found with
    | none =>
      left
      simp only [selectRandomQuestion, hloop]
      rw [if_neg hready, if_neg hatt]
    | some i =>
      cases hget : st.ans.get? i with
      | none =>
        left
        simp only [selectRandomQuestion, hloop, hget]
        rw [if_neg hready, if_neg hatt]
      | some r =>
        right
        refine ⟨i, r, rfl, hget, ?_⟩
        simp only [selectRandomQuestion, hloop, hget]
        rw [if_neg hready, if_neg hatt]

lemma selectRQ_max (st : SlotState) (draws : Nat → Nat) :
    ((selectRandomQuestion st draws).2).maxRecentQuestions
      = st.maxRecentQuestions := by
  rcases selectRQ_spec st draws with h | ⟨i, r, -, -, h⟩ <;> rw [h]

lemma selectRQ_none_recent (st : SlotState) (draws : Nat → Nat)
    (st' : SlotState) (h : selectRandomQuestion st draws = (none, st')) :
    st'.recentQuestions = st.recentQuestions := by
  rcases selectRQ_spec st draws with hs | ⟨i, r, -, -, hs⟩
  · rw [h] at hs
    simp only [Prod.mk.injEq] at hs
    rw [hs.2]
  · rw [h] at hs
    simp at hs

lemma selectRQ_some_recent (st : SlotState) (draws : Nat → Nat)
    (res : SelectResult) (st' : SlotState)
    (h : selectRandomQuestion st draws = (some res, st')) :
    st'.recentQuestions =
      (if st.maxRecentQuestions
          < (st.recentQuestions ++ [res.ansRowNumber - 2]).length
        then (st.recentQuestions ++ [res.ansRowNumber - 2]).tail
        else st.recentQuestions ++ [res.ansRowNumber - 2]) := by
  rcases selectRQ_spec st draws with hs | ⟨i, r, -, -, hs⟩
  · rw [h] at hs
    simp at hs
  · rw [h] at hs
    simp only [Prod.mk.injEq, Option.some.injEq] at hs
    obtain ⟨hres, hst⟩ := hs
    have hrow : res.ansRowNumber = i + 2 := by rw [hres]
    have hi : res.ansRowNumber - 2 = i := by omega
    rw [hi, hst]

lemma setDataFromJson_history (st : SlotState) (ansData : List AnswerRow)
    (l c r : List Nat) :
    (setDataFromJson st ansData l c r).recentQuestions = st.recentQuestions ∧
    (setDataFromJson st ansData l c r).maxRecentQuestions
      = st.maxRecentQuestions := by
  simp only [setDataFromJson]
  split <;> exact ⟨rfl, rfl⟩

lemma historyInv_applyOp (st : SlotState) (op : SlotOp)
    (hinv : historyInv st) : historyInv (applyOp st op) := by
  obtain ⟨hmax, hlen⟩ := hinv
  cases op with
  | load a l c r =>
    obtain ⟨h1, h2⟩ := setDataFromJson_history st a l c r
    exact ⟨by rw [applyOp, h2, hmax], by rw [applyOp, h1]; exact hlen⟩
  | setAnsData a => exact ⟨hmax, hlen⟩
  | select draws =>
    constructor
    · rw [applyOp, selectRQ_max, hmax]
    rcases selectRQ_spec st draws with hs | ⟨i, r, -, -, hs⟩
    · show ((selectRandomQuestion st draws).2).recentQuestions.length ≤ 3
      rw [hs]
      exact hlen
    · show ((selectRandomQuestion st draws).2).recentQuestions.length ≤ 3
      rw [hs]
      simp only
      split
      · simp only [List.length_tail, List.length_append,
          List.length_singleton]
        omega
      · rename_i hle
        rw [hmax] at hle
        simp only [List.length_append, List.length_singleton] at hle ⊢
        omega

lemma historyInv_runOps (ops : List SlotOp) : historyInv (runOps ops) := by
  have hgen : ∀ (l : List SlotOp) (st : SlotState), historyInv st →
      historyInv (l.foldl applyOp st) := by
    intro l
    induction l with
    | nil => intro st h; exact h
    | cons op rest ih =>
      intro st h
      exact ih (applyOp st op) (historyInv_applyOp st op h)
  exact hgen ops initState ⟨rfl, by simp [initState]⟩

/-- Claim C9: in every state reachable by loads, Ans replacement and
selections, the selection history holds at most 3 entries; a successful
selection appends the chosen index and evicts exactly the oldest entry
when the capacity is exceeded; a failed selection and the non-selection
operations leave the history untouched. -/
theorem C9_history_fifo :
    (∀ ops : List SlotOp, (runOps ops).recentQuestions.length ≤ 3) ∧
    (∀ st ansData l c r, (setDataFromJson st ansData l c r).recentQuestions
      = st.recentQuestions) ∧
    (∀ st newAns, (setAns st newAns).recentQuestions = st.recentQuestions) ∧
    (∀ (st : SlotState) (draws : Nat → Nat) (st' : SlotState),
      selectRandomQuestion st draws = (none, st') →
      st'.recentQuestions = st.recentQuestions) ∧
    (∀ (st : SlotState) (draws : Nat → Nat) (res : SelectResult)
        (st' : SlotState),
      selectRandomQuestion st draws = (some res, st') →
      st'.recentQuestions =
        (if st.maxRecentQuestions
            < (st.recentQuestions ++ [res.ansRowNumber - 2]).length
          then (st.recentQuestions ++ [res.ansRowNumber - 2]).tail
          else st.recentQuestions ++ [res.ansRowNumber - 2])) := by
  refine ⟨fun ops => (historyInv_runOps ops).2, ?_, ?_, ?_, ?_⟩
  · intro st ansData l c r
    exact (setDataFromJson_history st ansData l c r).1
  · intro st newAns
    rfl
  · intro st draws st' h
    exact selectRQ_none_recent st draws st' h
  · intro st draws res st' h
    exact selectRQ_some_recent st draws res st' h

lemma combinationAt_eq_some
    {lcPairs lrPairs crPairs : List (Int × Int)}
    {existingData : List (Int × Int × Int)}
    {i j k : Nat} {lItem cItem rItem : SheetEntry} {p : Problem} :
    combinationAt lcPairs lrPairs crPairs existingData
        i lItem j cItem k rItem = some p ↔
      ∃ typeL typeC typeR,
        entryType lItem = some typeL ∧ entryType cItem = some typeC ∧
        entryType rItem = some typeR ∧
        isValidCombination typeL typeC typeR lcPairs lrPairs crPairs = true ∧
        isExistingCombination ((i : Int) + 2, (j : Int) + 2, (k : Int) + 2)
          existingData = false ∧
        p = { row_L := i + 2, row_C := j + 2, row_R := k + 2
              question := lItem.question ++ cItem.question ++ rItem.question
              type_L := typeL, type_C := typeC, type_R := typeR } := by
  unfold combinationAt
  cases h1 : entryType lItem with
  | none => simp
  | some typeL =>
    cases h2 : entryType cItem with
    | none => simp
    | some typeC =>
      cases h3 : entryType rItem with
      | none => simp
      | some typeR =>
        dsimp only
        by_cases hv :
            isValidCombination typeL typeC typeR lcPairs lrPairs crPairs = true
        · rw [if_pos hv]
          by_cases he : isExistingCombination
              ((i : Int) + 2, (j : Int) + 2, (k : Int) + 2) existingData = true
          · rw [if_pos he]
            simp [hv, he]
          · rw [if_neg he]
            simp only [Bool.not_eq_true] at he
            simp only [Option.some.injEq]
            constructor
            · intro hp
              exact ⟨typeL, typeC, typeR, rfl, rfl, rfl, hv, he, hp.symm⟩
            · rintro ⟨tL, tC, tR, rfl, rfl, rfl, -, -, hp⟩
              exact hp.symm
        · rw [if_neg hv]
          simp [hv]

lemma generateCombinations_eq_filterMap (lData cData rData : List SheetEntry)
    (lcPairs lrPairs crPairs : List (Int × Int))
    (existingData : List (Int × Int × Int)) :
    generateCombinations lData cData rData lcPairs lrPairs crPairs existingData
      = (candidateTriples lData cData rData).filterMap
          (fun cand => combinationAt lcPairs lrPairs crPairs existingData
            cand.1.1 cand.1.2 cand.2.1.1 cand.2.1.2 cand.2.2.1 cand.2.2.2) := by
  unfold generateCombinations candidateTriples
  rw [List.filterMap_flatMap]
  refine List.flatMap_congr ?_
  intro li _
  rw [List.filterMap_flatMap]
  refine List.flatMap_congr ?_
  intro cj _
  rw [List.filterMap_map]
  rfl

/-- Claim C5: `generateCombinations` emits exactly those
`(row_L, row_C, row_R)` triples over numerically-typed entries for
which the three pairwise constraints hold and which are not among the
existing answer triples, and it emits them in nested order — left
entries outermost, then center, then right; entries whose type tag is
missing or non-numeric are skipped. -/
theorem C5_generate_combinations (lData cData rData : List SheetEntry)
    (lcPairs lrPairs crPairs : List (Int × Int))
    (existingData : List (Int × Int × Int)) :
    (∀ p : Problem,
      p ∈ generateCombinations lData cData rData lcPairs lrPairs crPairs
          existingData ↔
        ∃ i j k lItem cItem rItem typeL typeC typeR,
          lData.get? i = some lItem ∧ cData.get? j = some cItem ∧
          rData.get? k = some rItem ∧
          entryType lItem = some typeL ∧ entryType cItem = some typeC ∧
          entryType rItem = some typeR ∧
          isValidCombination typeL typeC typeR lcPairs lrPairs crPairs
            = true ∧
          isExistingCombination ((i : Int) + 2, (j : Int) + 2, (k : Int) + 2)
            existingData = false ∧
          p = { row_L := i + 2, row_C := j + 2, row_R := k + 2
                question := lItem.question ++ cItem.question ++ rItem.question
                type_L := typeL, type_C := typeC, type_R := typeR }) ∧
    generateCombinations lData cData rData lcPairs lrPairs crPairs existingData
      = (candidateTriples lData cData rData).filterMap
          (fun cand => combinationAt lcPairs lrPairs crPairs existingData
            cand.1.1 cand.1.2 cand.2.1.1 cand.2.1.2 cand.2.2.1 cand.2.2.2) := by
  refine ⟨?_, generateCombinations_eq_filterMap _ _ _ _ _ _ _⟩
  intro p
  unfold generateCombinations
  simp only [List.mem_flatMap, List.mem_filterMap,
    List.mem_enum_iff_getElem?]
  constructor
  · rintro ⟨⟨i, lItem⟩, hli, ⟨j, cItem⟩, hcj, ⟨k, rItem⟩, hrk, hcomb⟩
    obtain ⟨tL, tC, tR, h1, h2, h3, h4, h5, h6⟩ :=
      combinationAt_eq_some.mp hcomb
    exact ⟨i, j, k, lItem, cItem, rItem, tL, tC, tR,
      by rw [List.get?_eq_getElem?]; exact hli,
      by rw [List.get?_eq_getElem?]; exact hcj,
      by rw [List.get?_eq_getElem?]; exact hrk,
      h1, h2, h3, h4, h5, h6⟩
  · rintro ⟨i, j, k, lItem, cItem, rItem, tL, tC, tR,
      hli, hcj, hrk, h1, h2, h3, h4, h5, h6⟩
    rw [List.get?_eq_getElem?] at hli hcj hrk
    exact ⟨(i, lItem), hli, (j, cItem), hcj, (k, rItem), hrk,
      combinationAt_eq_some.mpr ⟨tL, tC, tR, h1, h2, h3, h4, h5, h6⟩⟩

lemma foldl_writeStep_rows (lcPairs lrPairs crPairs : List (Int × Int))
    (existingData : List (Int × Int × Int)) :
    ∀ (trips : List ((Nat × SheetEntry) × (Nat × SheetEntry)
        × (Nat × SheetEntry)))
      (acc : List AnsWrite) (n : Nat),
      ((trips.foldl (writeStep lcPairs lrPairs crPairs existingData)
          (acc, n)).1).map (fun w => w.row)
        = acc.map (fun w => w.row) ++
          List.range' n
            (trips.filterMap
              (fun cand => combinationAt lcPairs lrPairs crPairs existingData
                cand.1.1 cand.1.2 cand.2.1.1 cand.2.1.2
                cand.2.2.1 cand.2.2.2)).length := by
  intro trips
  induction trips with
  | nil => intro acc n; simp
  | cons t ts ih =>
    intro acc n
    simp only [List.foldl_cons, List.filterMap_cons]
    cases hc : combinationAt lcPairs lrPairs crPairs existingData
        t.1.1 t.1.2 t.2.1.1 t.2.1.2 t.2.2.1 t.2.2.2 with
    | none =>
      simp only [writeStep, hc]
      exact ih acc n
    | some p =>
      simp only [writeStep, hc]
      rw [ih _ (n + 1)]
      simp [List.range'_succ]

lemma foldl_addToSet_nodup {α : Type} [DecidableEq α] :
    ∀ (l acc : List α), (acc ++ l).Nodup → l.foldl addToSet acc = acc ++ l := by
  intro l
  induction l with
  | nil => intro acc _; simp
  | cons x xs ih =>
    intro acc h
    have hx : x ∉ acc := by
      rw [List.nodup_append] at h
      intro hxin
      exact h.2.2 hxin (List.mem_cons_self x xs)
    simp only [List.foldl_cons]
    rw [addToSet, if_neg hx]
    rw [ih (acc ++ [x]) (by simpa [List.append_assoc] using h)]
    simp [List.append_assoc]

/-- Claim C6 (amended): when persisting generated problems into the
Ans sheet, `generateCombinations` writes them to sequential row
numbers starting at `2 + size` where `size` is the number of
*distinct* pre-existing `(row_L, row_C, row_R)` triples; when the
pre-existing triples are pairwise distinct this start row is
`2 + (number of pre-existing rows)`, i.e. the row directly following
the last pre-existing row.  (With duplicated pre-existing triples the
JS `Set` shrinks and the first write lands on a row that still holds
an existing triple; see the counterexample.) -/
theorem C6_sequential_rows (lData cData rData : List SheetEntry)
    (lcPairs lrPairs crPairs : List (Int × Int))
    (ansRows : List (Int × Int × Int)) :
    (generateCombinationsWrites lData cData rData lcPairs lrPairs crPairs
        ansRows).map (fun w => w.row)
      = List.range' (2 + (loadExistingAnsData ansRows).length)
          (generateCombinations lData cData rData lcPairs lrPairs crPairs
            (loadExistingAnsData ansRows)).length ∧
    (ansRows.Nodup →
      2 + (loadExistingAnsData ansRows).length = 2 + ansRows.length) := by
  constructor
  · unfold generateCombinationsWrites
    rw [foldl_writeStep_rows]
    rw [generateCombinations_eq_filterMap]
    simp
  · intro hnd
    unfold loadExistingAnsData
    rw [foldl_addToSet_nodup ansRows [] (by simpa using hnd)]
    simp

/-- Claim C7 (amended): for a reel list of length `n ≥ 1` and a target
row whose first index `i` in the list satisfies `i < centerOffset`,
`getPositionForQuestion` wraps by adding the list length once:
`topIndex = i - centerOffset + n` and the returned position is
`-topIndex * symbolHeight`; provided additionally
`centerOffset ≤ n`, this `topIndex` is non-negative.  (Without that
bound a single wrap can leave `topIndex` negative; see the
counterexample.) -/
theorem C7_wraparound (st : SlotState) (reelType : ReelType)
    (target i rand10 : Nat)
    (hfind : (rowsForReel st reelType).findIdx? (fun x => x == target)
      = some i)
    (hlt : i < st.visibleRows / 2)
    (hco : st.visibleRows / 2 ≤ (rowsForReel st reelType).length) :
    getPositionForQuestion st target reelType rand10
      = -((i : Int) - ((st.visibleRows / 2 : Nat) : Int)
          + ((rowsForReel st reelType).length : Int))
        * (st.symbolHeight : Int)
    ∧ 0 ≤ (i : Int) - ((st.visibleRows / 2 : Nat) : Int)
        + ((rowsForReel st reelType).length : Int) := by
  constructor
  · simp only [getPositionForQuestion, hfind]
    rw [if_pos (by push_cast; omega)]
    ring
  · push_cast
    omega

/-! Witnesses and counterexamples. -/

/-- Witness for C1 on a concrete wrapped instance: `visibleRows = 3`,
list `[2, 3]`, target `3`. -/
theorem C1_roundtrip_witness :
    getQuestionFromPosition threeRowState
      (getPositionForQuestion threeRowState 3 .left 0) .left = some 3 :=
  C1_roundtrip threeRowState .left 3 0 (by decide) (by decide) (by decide)
    (by decide)

/-- Counterexample to C1 as stated: with `symbolHeight = 250 > 0`,
`visibleRows = 9 ≥ 1` and the non-empty list `[2, 3, 4]` (center
offset 4 exceeds the length 3), the round trip maps row 2 to row 4. -/
theorem C1_roundtrip_counterexample :
    0 < wideWindowState.symbolHeight ∧
    1 ≤ wideWindowState.visibleRows ∧
    (2 : Nat) ∈ rowsForReel wideWindowState .left ∧
    1 ≤ (rowsForReel wideWindowState .left).length ∧
    getQuestionFromPosition wideWindowState
      (getPositionForQuestion wideWindowState 2 .left 0) .left = some 4 ∧
    ¬ getQuestionFromPosition wideWindowState
      (getPositionForQuestion wideWindowState 2 .left 0) .left = some 2 := by
  decide

/-- Witness for C7: `visibleRows = 3` (center offset 1), list `[2, 3]`,
row 2 at index 0 wraps to the tail and stops at `-250`. -/
theorem C7_wraparound_witness :
    getPositionForQuestion threeRowState 2 .left 0 = -250 := by
  have h := C7_wraparound threeRowState .left 2 0 0 (by decide) (by decide)
    (by decide)
  rw [h.1]
  decide

/-- Counterexample to C7 as stated: with `visibleRows = 4` (center
offset 2) and the one-element list `[2]`, row 2 has index `0 < 2`, the
wrapped `topIndex = 0 - 2 + 1 = -1` is still negative, and the
returned position `250` is positive — it is derived from that
negative top index (every non-negative top index yields a position
`≤ 0`). -/
theorem C7_wraparound_counterexample :
    (rowsForReel narrowListState .left).findIdx? (fun x => x == 2)
      = some 0 ∧
    0 < narrowListState.visibleRows / 2 ∧
    ((0 : Int) - ((narrowListState.visibleRows / 2 : Nat) : Int)
      + ((rowsForReel narrowListState .left).length : Int)) < 0 ∧
    getPositionForQuestion narrowListState 2 .left 0
      = -(((0 : Int) - ((narrowListState.visibleRows / 2 : Nat) : Int)
          + ((rowsForReel narrowListState .left).length : Int)))
        * (narrowListState.symbolHeight : Int) ∧
    0 < getPositionForQuestion narrowListState 2 .left 0 := by
  decide

/-- Witness for C2: on `mixedState`, drawing the valid index 1 at the
very first attempt succeeds. -/
theorem C2_success_witness :
    ∃ res st',
      selectRandomQuestion mixedState (fun _ => 1) = (some res, st') ∧
      mixedState.ans.get? 1 = some res.answer := by
  have h := C2_success_before_cap mixedState (fun _ => 1) 0 (by decide)
    (by decide) (by decide) (fun t ht => absurd ht (Nat.not_lt_zero t))
  obtain ⟨-, res, st', heq, hget, -⟩ := h
  exact ⟨res, st', heq, hget⟩

/-- Counterexample to C2 as stated: on `mixedState` with `capDraws`
(49 draws of the invalid index 0, then the valid index 1), the loop
accepts index 1 exactly at attempt 50 — within the cap — yet the call
returns `null` and leaves the state unchanged. -/
theorem C2_cap_counterexample :
    isDataReady mixedState = true ∧
    acceptable mixedState (capDraws 49) = true ∧
    selectGo mixedState capDraws maxAttempts 0 = (some 1, 50) ∧
    selectRandomQuestion mixedState capDraws = (none, mixedState) := by
  decide

/-- Witness for C3: a ready store holding only the blank-answer row
exhausts all 50 attempts and fails. -/
theorem C3_exhaustion_witness :
    (selectGo allInvalidState (fun _ => 0) maxAttempts 0).2 = 50 ∧
    selectRandomQuestion allInvalidState (fun _ => 0)
      = (none, allInvalidState) :=
  C3_exhaustion allInvalidState (fun _ => 0) (by decide)
    (fun _ => Nat.zero_lt_one) (by decide)

/-- Witness for C4 at the concrete successful selection on
`mixedState`. -/
theorem C4_result_valid_witness :
    ∃ i, selectedResult.ansRowNumber = i + 2 ∧
      mixedState.recentQuestions.contains i = false ∧
      mixedState.ans.get? i = some selectedResult.answer ∧
      selectedResult.answer.row_L ≠ 0 ∧ selectedResult.answer.row_C ≠ 0 ∧
      selectedResult.answer.row_R ≠ 0 ∧
      jsTrim selectedResult.answer.ans ≠ "" ∧
      jsTrim selectedResult.answer.lie_answer1 ≠ "" ∧
      jsTrim selectedResult.answer.lie_answer2 ≠ "" :=
  C4_result_valid mixedState (fun _ => 1) selectedResult selectedState
    (by decide)

/-- Witness for C8: judging the correct path on an active question and
judging on a store with no active question. -/
theorem C8_judge_witness :
    (∃ n, activeState.currentAnsRowNumber = some n ∧
      (judgeAnswer activeState "Ans_D/2.png").isCorrect
        = ("Ans_D/2.png" == ansCorrectPath ++ toString n ++ ".png") ∧
      (judgeAnswer activeState "Ans_D/2.png").correctImagePath
        = some (ansCorrectPath ++ toString n ++ ".png")) ∧
    ((judgeAnswer initState "x").isCorrect = false ∧
      (judgeAnswer initState "x").correctImagePath = none) :=
  ⟨(C8_judge activeState "Ans_D/2.png").1 (by decide),
    (C8_judge initState "x").2 (by decide)⟩

/-- Witness for C9: a concrete run, a load, and the FIFO push of the
concrete successful selection. -/
theorem C9_history_fifo_witness :
    (runOps [SlotOp.select (fun _ => 1)]).recentQuestions.length ≤ 3 ∧
    (setAns initState [demoRow]).recentQuestions
      = initState.recentQuestions ∧
    selectedState.recentQuestions =
      (if mixedState.maxRecentQuestions
          < (mixedState.recentQuestions
              ++ [selectedResult.ansRowNumber - 2]).length
        then (mixedState.recentQuestions
          ++ [selectedResult.ansRowNumber - 2]).tail
        else mixedState.recentQuestions
          ++ [selectedResult.ansRowNumber - 2]) := by
  refine ⟨C9_history_fifo.1 _, C9_history_fifo.2.2.1 initState [demoRow], ?_⟩
  exact C9_history_fifo.2.2.2.2 mixedState (fun _ => 1) selectedResult
    selectedState (by decide)

/-- Witness for C10: the failed capped run on `mixedState` leaves the
three fields unchanged. -/
theorem C10_failure_atomic_witness :
    mixedState.recentQuestions = mixedState.recentQuestions ∧
    mixedState.currentAnswer = mixedState.currentAnswer ∧
    mixedState.currentAnsRowNumber = mixedState.currentAnsRowNumber :=
  C10_failure_atomic mixedState capDraws mixedState (by decide)

/-- Witness for C5: the single all-type-1 triple is generated from
one-entry sheets under singleton constraint sets. -/
theorem C5_generate_witness :
    ({ row_L := 2, row_C := 2, row_R := 2, question := "qqq"
       type_L := 1, type_C := 1, type_R := 1 } : Problem)
      ∈ generateCombinations [typedEntry] [typedEntry] [typedEntry]
          [(1, 1)] [(1, 1)] [(1, 1)] [] := by
  refine ((C5_generate_combinations [typedEntry] [typedEntry] [typedEntry]
    [(1, 1)] [(1, 1)] [(1, 1)] []).1 _).mpr ?_
  exact ⟨0, 0, 0, typedEntry, typedEntry, typedEntry, 1, 1, 1,
    by decide, by decide, by decide, by decide, by decide, by decide,
    by decide, by decide, by decide⟩

/-- Witness for C6 with a single, duplicate-free pre-existing row. -/
theorem C6_sequential_rows_witness :
    (generateCombinationsWrites [typedEntry] [typedEntry] [typedEntry]
        [(1, 1)] [(1, 1)] [(1, 1)]
        [((1 : Int), (1 : Int), (1 : Int))]).map (fun w => w.row)
      = List.range'
          (2 + (loadExistingAnsData
            [((1 : Int), (1 : Int), (1 : Int))]).length)
          (generateCombinations [typedEntry] [typedEntry] [typedEntry]
            [(1, 1)] [(1, 1)] [(1, 1)]
            (loadExistingAnsData
              [((1 : Int), (1 : Int), (1 : Int))])).length ∧
    2 + (loadExistingAnsData
        [((1 : Int), (1 : Int), (1 : Int))]).length
      = 2 + ([((1 : Int), (1 : Int), (1 : Int))] :
          List (Int × Int × Int)).length := by
  have h := C6_sequential_rows [typedEntry] [typedEntry] [typedEntry]
    [(1, 1)] [(1, 1)] [(1, 1)] [((1 : Int), (1 : Int), (1 : Int))]
  exact ⟨h.1, h.2 (by decide)⟩

/-- Counterexample to C6 as stated: with two pre-existing rows both
holding the triple `(1,1,1)` (sheet rows 2 and 3), the JS `Set`
collapses them to size 1, so the first generated problem is written to
row 3 — which still holds an existing triple — instead of row 4, the
row directly following the last pre-existing row. -/
theorem C6_sequential_rows_counterexample :
    generateCombinationsWrites [typedEntry] [typedEntry] [typedEntry]
        [(1, 1)] [(1, 1)] [(1, 1)]
        [((1 : Int), (1 : Int), (1 : Int)),
          ((1 : Int), (1 : Int), (1 : Int))]
      = [{ row := 3, row_L := 2, row_C := 2, row_R := 2
           question := "qqq" }] ∧
    ([((1 : Int), (1 : Int), (1 : Int)),
        ((1 : Int), (1 : Int), (1 : Int))] :
      List (Int × Int × Int)).length = 2 ∧
    (3 : Nat) ≠ 2 + 2 := by
  decide

end SlotSpec


